import Mathlib

/-!
Shallow embedding of `src/drivers/hott/hott_telemetry/hott_telemetry.c`
(Graupner HoTT telemetry driver): the request listener `recv_req_id`, the
alternate text-mode reader `recv_data`, the frame transmitter `send_data`,
and one iteration of the session loop in `hott_telemetry_thread_main`.

The serial link is modelled as an infinite byte stream on the receive side
(`input`, consumed at `rxPos`) together with a log of transmitted bytes
(`txLog`).  The outcome of `poll` (whether a byte became readable within the
1000 ms timeout) is an environment parameter `avail`; the return value of
each `write` syscall, which the C code discards, is modelled by an
environment function `writeOk` indexed by the number of bytes written so
far.  Protocol constants that live in headers outside this file
(`BINARY_MODE_REQUEST_ID`, `STOP_BYTE`, `EAM_SENSOR_ID`, `GPS_SENSOR_ID`)
are parameters of the definitions, since no claim depends on their values.
Bytes are `Nat` values; the `uint16_t` checksum accumulator wraps mod 65536
explicitly.
-/

namespace HottTelemetry

/-- Return code `OK` from `systemlib/err.h` (NuttX convention). -/
def OK : Int := 0

/-- Return code `ERROR` from `systemlib/err.h` (NuttX convention). -/
def ERROR : Int := -1

/-- State of the half-duplex serial link: the byte stream arriving on the
receive side, how many of those bytes have been consumed, and the bytes
written out so far. -/
structure UartState where
  input : Nat → Nat
  rxPos : Nat
  txLog : List Nat

/-- Result of `recv_req_id`: the returned status, the value of the caller's
`*id` cell after the call, and the link state after the call. -/
structure RecvReqResult where
  status : Int
  id : Nat
  uart : UartState

/-- Embedding of `recv_req_id` (hott_telemetry.c lines 79-104).  `marker` is
`BINARY_MODE_REQUEST_ID`, `id0` the caller's `*id` value before the call,
`avail` the outcome of the 1000 ms `poll`.  On readability it reads the mode
byte; a mode byte different from the marker returns `ERROR` without reading
further; otherwise it reads the id byte and returns `OK`.  On timeout it
returns `ERROR` having read nothing. -/
def recv_req_id (marker id0 : Nat) (avail : Bool) (u : UartState) :
    RecvReqResult :=
  if avail then
    let mode := u.input u.rxPos
    let u1 : UartState := { u with rxPos := u.rxPos + 1 }
    if mode ≠ marker then
      ⟨ERROR, id0, u1⟩
    else
      ⟨OK, u1.input u1.rxPos, { u1 with rxPos := u1.rxPos + 1 }⟩
  else
    ⟨ERROR, id0, u⟩

/-- Concrete receive stream used by witnesses: bytes `5, 7, 0, 0, ...`. -/
def validInput : Nat → Nat := fun n => if n = 0 then 5 else if n = 1 then 7 else 0

/-- Concrete link state used by witnesses: stream `validInput`, nothing yet
consumed or written. -/
def validUart : UartState := ⟨validInput, 0, []⟩

/-- Concrete receive stream whose first byte (9) is not the marker (5). -/
def mismatchInput : Nat → Nat := fun _ => 9

/-- Concrete link state whose next byte mismatches the marker 5. -/
def mismatchUart : UartState := ⟨mismatchInput, 0, []⟩

/-- C5: for every stream whose first byte is the binary-request marker,
delivered within the timeout, `recv_req_id` returns `OK` with the second
byte of the stream as the sensor id and consumes exactly two bytes from the
link (writing nothing). -/
theorem recv_req_id_valid_header (marker id0 : Nat) (u : UartState)
    (h : u.input u.rxPos = marker) :
    (recv_req_id marker id0 true u).status = OK ∧
    (recv_req_id marker id0 true u).id = u.input (u.rxPos + 1) ∧
    (recv_req_id marker id0 true u).uart.rxPos = u.rxPos + 2 ∧
    (recv_req_id marker id0 true u).uart.txLog = u.txLog := by
  simp [recv_req_id, h]

/-- Witness for C5 at the concrete stream beginning `5, 7, 0, 0, ...`. -/
theorem recv_req_id_valid_header_witness :
    validUart.input validUart.rxPos = 5 ∧
    ((recv_req_id 5 0 true validUart).status = OK ∧
      (recv_req_id 5 0 true validUart).id =
        validUart.input (validUart.rxPos + 1) ∧
      (recv_req_id 5 0 true validUart).uart.rxPos = validUart.rxPos + 2 ∧
      (recv_req_id 5 0 true validUart).uart.txLog = validUart.txLog) :=
  ⟨rfl, recv_req_id_valid_header 5 0 validUart rfl⟩

/-- C3 counterexample: a mode byte (9) that mismatches the marker (5) makes
`recv_req_id` return the very same status value `ERROR` that a timeout
returns, so the two failures are not distinguishable by the caller. -/
theorem recv_req_id_mismatch_indistinguishable :
    (recv_req_id 5 0 true mismatchUart).status =
      (recv_req_id 5 0 false mismatchUart).status ∧
    (recv_req_id 5 0 true mismatchUart).status = ERROR := by
  constructor <;> rfl

/-- C3 amended: on a mode byte different from the marker, `recv_req_id`
fails with `ERROR`, the same status value it returns on timeout; only the
number of consumed bytes differs between the two failure paths. -/
theorem recv_req_id_mismatch_same_error (marker id0 : Nat) (u : UartState)
    (h : u.input u.rxPos ≠ marker) :
    (recv_req_id marker id0 true u).status = ERROR ∧
    (recv_req_id marker id0 true u).status =
      (recv_req_id marker id0 false u).status := by
  simp [recv_req_id, h]

/-- Witness for the amended C3 at the concrete mismatching stream. -/
theorem recv_req_id_mismatch_same_error_witness :
    mismatchUart.input mismatchUart.rxPos ≠ 5 ∧
    ((recv_req_id 5 0 true mismatchUart).status = ERROR ∧
      (recv_req_id 5 0 true mismatchUart).status =
        (recv_req_id 5 0 false mismatchUart).status) :=
  ⟨by decide, recv_req_id_mismatch_same_error 5 0 mismatchUart (by decide)⟩

/-- Result of a single `write` syscall on the link: the returned status (as
the C code receives it, and discards) and the new link state.  `writeOk`
models which write calls succeed, indexed by how many bytes were written
before the call. -/
def uwrite (writeOk : Nat → Bool) (u : UartState) (b : Nat) :
    Int × UartState :=
  (if writeOk u.txLog.length then 1 else ERROR,
    { u with txLog := u.txLog ++ [b] })

/-- Embedding of the write loop of `send_data` (hott_telemetry.c lines
144-158): walks the frame, accumulating the `uint16_t` checksum (wrapping
mod 65536) over every byte except the last, and at the last position writes
`checksum & 0xff` instead of the builder-supplied byte.  Returns the final
contents of the caller's buffer (also the bytes written, in order) and the
link state; each write result is discarded, as in the C code. -/
def send_loop (writeOk : Nat → Bool) :
    UartState → List Nat → Nat → List Nat × UartState
  | u, [], _ => ([], u)
  | u, [_], checksum =>
      let b := checksum % 256
      let r := uwrite writeOk u b
      ([b], r.2)
  | u, x :: y :: rest, checksum =>
      let r := uwrite writeOk u x
      let s := send_loop writeOk r.2 (y :: rest) ((checksum + x) % 65536)
      (x :: s.1, s.2)

/-- Result of `send_data`: returned status, the caller's buffer after the
call, and the link state after the call. -/
structure SendResult where
  status : Int
  buffer : List Nat
  uart : UartState

/-- Embedding of `send_data` (hott_telemetry.c lines 139-166): writes the
frame with the checksum injected at the last position, then drains
(`read(uart, &dummy, size)`) exactly `size` echoed bytes from the receive
side, and returns `OK` unconditionally. -/
def send_data (writeOk : Nat → Bool) (u : UartState) (buffer : List Nat) :
    SendResult :=
  let r := send_loop writeOk u buffer 0
  ⟨OK, r.1, { r.2 with rxPos := r.2.rxPos + buffer.length }⟩

/-- Checksum accumulation as the C loop performs it: a left fold wrapping
mod 65536 at every step. -/
def checksum_fold (c : Nat) (l : List Nat) : Nat :=
  l.foldl (fun a b => (a + b) % 65536) c

theorem checksum_fold_mod (l : List Nat) :
    ∀ c : Nat, checksum_fold c l % 256 = (c + l.sum) % 256 := by
  induction l with
  | nil => intro c; simp [checksum_fold]
  | cons x xs ih =>
      intro c
      have h := ih ((c + x) % 65536)
      simp only [checksum_fold, List.foldl_cons, List.sum_cons] at h ⊢
      omega

theorem send_loop_fst (writeOk : Nat → Bool) (l : List Nat) :
    ∀ (c : Nat) (u : UartState), l ≠ [] →
      (send_loop writeOk u l c).1 =
        l.dropLast ++ [checksum_fold c l.dropLast % 256] := by
  induction l with
  | nil => intro c u h; exact absurd rfl h
  | cons x xs ih =>
      intro c u _
      cases xs with
      | nil => simp [send_loop, checksum_fold]
      | cons y rest =>
          have h := ih ((c + x) % 65536)
            (uwrite writeOk u x).2 (by simp)
          simp only [send_loop, h, checksum_fold, List.foldl_cons]
          simp [List.dropLast_cons_of_ne_nil]

theorem send_loop_txLog (writeOk : Nat → Bool) (l : List Nat) :
    ∀ (c : Nat) (u : UartState),
      (send_loop writeOk u l c).2.txLog =
        u.txLog ++ (send_loop writeOk u l c).1 := by
  induction l with
  | nil => intro c u; simp [send_loop]
  | cons x xs ih =>
      intro c u
      cases xs with
      | nil => simp [send_loop, uwrite]
      | cons y rest =>
          simp only [send_loop, ih, uwrite]
          simp

theorem send_loop_rxPos (writeOk : Nat → Bool) (l : List Nat) :
    ∀ (c : Nat) (u : UartState),
      (send_loop writeOk u l c).2.rxPos = u.rxPos := by
  induction l with
  | nil => intro c u; simp [send_loop]
  | cons x xs ih =>
      intro c u
      cases xs with
      | nil => simp [send_loop, uwrite]
      | cons y rest => simp only [send_loop, ih, uwrite]

theorem send_loop_fst_input_free (writeOk : Nat → Bool) (l : List Nat) :
    ∀ (c : Nat) (u v : UartState),
      (send_loop writeOk u l c).1 = (send_loop writeOk v l c).1 := by
  induction l with
  | nil => intro c u v; rfl
  | cons x xs ih =>
      intro c u v
      cases xs with
      | nil => rfl
      | cons y rest =>
          simp only [send_loop]
          rw [ih ((c + x) % 65536) (uwrite writeOk u x).2
            (uwrite writeOk v x).2]

theorem send_loop_length (writeOk : Nat → Bool) (l : List Nat) :
    ∀ (c : Nat) (u : UartState),
      (send_loop writeOk u l c).1.length = l.length := by
  induction l with
  | nil => intro c u; rfl
  | cons x xs ih =>
      intro c u
      cases xs with
      | nil => rfl
      | cons y rest =>
          simp only [send_loop, List.length_cons]
          rw [ih ((c + x) % 65536) (uwrite writeOk u x).2]
          simp

/-- C1: for every frame of size at least 1, `send_data` transmits the
frame's payload followed, in the final position, by the additive sum mod
256 of all preceding bytes, replacing the builder-supplied last byte: the
caller's buffer afterwards is the payload (all but the last byte) with the
checksum appended, and exactly those bytes are appended to the transmit
log. -/
theorem send_data_checksum_last (writeOk : Nat → Bool) (u : UartState)
    (buffer : List Nat) (h : 1 ≤ buffer.length) :
    (send_data writeOk u buffer).buffer =
      buffer.dropLast ++ [buffer.dropLast.sum % 256] ∧
    (send_data writeOk u buffer).uart.txLog =
      u.txLog ++ (send_data writeOk u buffer).buffer := by
  have hne : buffer ≠ [] := by
    cases buffer with
    | nil => simp at h
    | cons a l => simp
  constructor
  · show (send_loop writeOk u buffer 0).1 = _
    rw [send_loop_fst writeOk buffer 0 u hne, checksum_fold_mod]
    simp
  · show (send_loop writeOk u buffer 0).2.txLog = _
    exact send_loop_txLog writeOk buffer 0 u

/-- Witness for C1: frame `[10, 200, 100]` is transmitted as
`[10, 200, 210]` — the last byte is replaced by `(10 + 200) % 256`. -/
theorem send_data_checksum_last_witness :
    1 ≤ ([10, 200, 100] : List Nat).length ∧
    ((send_data (fun _ => true) validUart [10, 200, 100]).buffer =
      ([10, 200, 100] : List Nat).dropLast ++
        [([10, 200, 100] : List Nat).dropLast.sum % 256] ∧
    (send_data (fun _ => true) validUart [10, 200, 100]).uart.txLog =
      validUart.txLog ++
        (send_data (fun _ => true) validUart [10, 200, 100]).buffer) :=
  ⟨by decide,
    send_data_checksum_last (fun _ => true) validUart [10, 200, 100]
      (by decide)⟩

/-- C4 counterexample: with every `write` on the link failing, `send_data`
still returns `OK` on the frame `[1, 2, 3]` — the write failure is
swallowed and reported as success, not surfaced as an error result. -/
theorem send_data_swallows_write_failure :
    (send_data (fun _ => false) validUart [1, 2, 3]).status = OK ∧
    (send_data (fun _ => false) validUart [1, 2, 3]).status ≠ ERROR := by
  constructor
  · rfl
  · decide

/-- C4 amended: `send_data` returns `OK` unconditionally; the return value
of every `write` call is discarded, so no write failure is ever surfaced to
the caller. -/
theorem send_data_always_ok (writeOk : Nat → Bool) (u : UartState)
    (buffer : List Nat) :
    (send_data writeOk u buffer).status = OK ∧
    (send_data writeOk u buffer).status ≠ ERROR :=
  ⟨rfl, by show OK ≠ ERROR; decide⟩

/-- C7: for every frame of size N, after writing the frame `send_data`
drains exactly N bytes from the receive side of the link (the half-duplex
echo), regardless of their content: the read position advances by exactly
the frame length for every receive stream, and the resulting buffer and
status do not depend on the echoed bytes. -/
theorem send_data_echo_drain (writeOk : Nat → Bool) (u : UartState)
    (buffer : List Nat) :
    (send_data writeOk u buffer).uart.rxPos = u.rxPos + buffer.length ∧
    (∀ input2 : Nat → Nat,
      (send_data writeOk { u with input := input2 } buffer).uart.rxPos =
        u.rxPos + buffer.length ∧
      (send_data writeOk { u with input := input2 } buffer).buffer =
        (send_data writeOk u buffer).buffer ∧
      (send_data writeOk { u with input := input2 } buffer).status =
        (send_data writeOk u buffer).status) := by
  refine ⟨?_, fun input2 => ⟨?_, ?_, rfl⟩⟩
  · show (send_loop writeOk u buffer 0).2.rxPos + buffer.length = _
    rw [send_loop_rxPos]
  · show (send_loop writeOk { u with input := input2 } buffer 0).2.rxPos +
      buffer.length = _
    rw [send_loop_rxPos]
  · exact send_loop_fst_input_free writeOk buffer 0
      { u with input := input2 } u

/-- C10: for every frame of size at least 1, `send_data` mutates only the
byte at the last index of the caller's buffer: the buffer keeps its length
and every byte at an index below `size - 1` is unchanged. -/
theorem send_data_mutates_only_last (writeOk : Nat → Bool) (u : UartState)
    (buffer : List Nat) (h : 1 ≤ buffer.length) :
    (send_data writeOk u buffer).buffer.length = buffer.length ∧
    ∀ i, i < buffer.length - 1 →
      (send_data writeOk u buffer).buffer[i]? = buffer[i]? := by
  have hne : buffer ≠ [] := by
    cases buffer with
    | nil => simp at h
    | cons a l => simp
  have hfst : (send_data writeOk u buffer).buffer =
      buffer.dropLast ++ [checksum_fold 0 buffer.dropLast % 256] :=
    send_loop_fst writeOk buffer 0 u hne
  constructor
  · rw [hfst]
    simp [List.length_dropLast]
    omega
  · intro i hi
    rw [hfst]
    have hlen : i < buffer.dropLast.length := by
      simp [List.length_dropLast]; omega
    rw [List.getElem?_append, if_pos hlen]
    rw [List.getElem?_eq_getElem hlen,
      List.getElem?_eq_getElem (by omega : i < buffer.length)]
    simp [List.getElem_dropLast]

/-- Witness for C10: on frame `[10, 200, 100]` the first two bytes survive
`send_data` unchanged and the length stays 3. -/
theorem send_data_mutates_only_last_witness :
    1 ≤ ([10, 200, 100] : List Nat).length ∧
    ((send_data (fun _ => true) validUart [10, 200, 100]).buffer.length =
      ([10, 200, 100] : List Nat).length ∧
    ∀ i, i < ([10, 200, 100] : List Nat).length - 1 →
      (send_data (fun _ => true) validUart [10, 200, 100]).buffer[i]? =
        ([10, 200, 100] : List Nat)[i]?) :=
  ⟨by decide,
    send_data_mutates_only_last (fun _ => true) validUart [10, 200, 100]
      (by decide)⟩

/-- Observable console notices emitted by one session-loop iteration:
`reconnect` is the `warnx("OK")` printed on regaining sync, `syncing` the
`warnx("syncing")` printed when a cycle fails. -/
inductive Notice where
  | reconnect
  | syncing
deriving DecidableEq

/-- State carried across iterations of the `while (!thread_should_exit)`
loop in `hott_telemetry_thread_main`: the link, the `connected` flag, and
the `buffer`/`size`/`id` locals. -/
structure LoopState where
  uart : UartState
  connected : Bool
  buffer : List Nat
  size : Nat
  id : Nat

/-- Result of one session-loop iteration: the next state, the notices
emitted, and whether a frame was transmitted this cycle. -/
structure StepResult where
  state : LoopState
  notices : List Notice
  transmitted : Bool

/-- Embedding of one iteration of the session loop (hott_telemetry.c lines
203-229).  `marker`, `eamId`, `gpsId` are the protocol constants from the
headers; `build_eam` and `build_gps` are the outputs of the external
builder collaborators (treated opaquely as the bytes they place in the
buffer); `writeOk` models the write outcomes and `avail` the poll outcome
of this cycle.  On listener success the flag is set connected (printing
`OK` when previously disconnected) and the id is dispatched: a supported id
builds and transmits a frame, an unsupported id falls to `continue`.  On
listener failure the flag is cleared and `syncing` is printed. -/
def loop_step (marker eamId gpsId : Nat) (build_eam build_gps : List Nat)
    (writeOk : Nat → Bool) (avail : Bool) (s : LoopState) : StepResult :=
  let r := recv_req_id marker s.id avail s.uart
  if r.status = OK then
    let notices := if s.connected then [] else [Notice.reconnect]
    let s1 : LoopState :=
      { s with uart := r.uart, id := r.id, connected := true }
    if r.id = eamId then
      let sd := send_data writeOk s1.uart build_eam
      ⟨{ s1 with
          uart := sd.uart
          buffer := sd.buffer
          size := build_eam.length }, notices, true⟩
    else if r.id = gpsId then
      let sd := send_data writeOk s1.uart build_gps
      ⟨{ s1 with
          uart := sd.uart
          buffer := sd.buffer
          size := build_gps.length }, notices, true⟩
    else
      ⟨s1, notices, false⟩
  else
    ⟨{ s with uart := r.uart, id := r.id, connected := false },
      [Notice.syncing], false⟩

theorem recv_req_id_txLog (marker id0 : Nat) (avail : Bool)
    (u : UartState) :
    (recv_req_id marker id0 avail u).uart.txLog = u.txLog := by
  unfold recv_req_id
  by_cases h : avail
  · by_cases h2 : u.input u.rxPos ≠ marker <;> simp [h, h2]
  · simp [h]

theorem loop_step_connected (marker eamId gpsId : Nat) (be bg : List Nat)
    (wOk : Nat → Bool) (avail : Bool) (s : LoopState) :
    (loop_step marker eamId gpsId be bg wOk avail s).state.connected =
      decide ((recv_req_id marker s.id avail s.uart).status = OK) := by
  by_cases h : (recv_req_id marker s.id avail s.uart).status = OK
  · simp only [loop_step, h, if_true, decide_eq_true_eq]
    split
    · rfl
    · split <;> rfl
  · simp [loop_step, h]

theorem loop_step_notices (marker eamId gpsId : Nat) (be bg : List Nat)
    (wOk : Nat → Bool) (avail : Bool) (s : LoopState) :
    (loop_step marker eamId gpsId be bg wOk avail s).notices =
      if (recv_req_id marker s.id avail s.uart).status = OK then
        (if s.connected then [] else [Notice.reconnect])
      else [Notice.syncing] := by
  by_cases h : (recv_req_id marker s.id avail s.uart).status = OK
  · simp only [loop_step, h, if_true]
    split
    · rfl
    · split <;> rfl
  · simp [loop_step, h]

/-- C2: after any session-loop iteration (hence in every reachable state,
each being produced by its last iteration), the connectivity flag equals
the outcome of that iteration's listener call: it is set exactly when
`recv_req_id` returned `OK`, a reconnection notice is emitted exactly on
success from a disconnected state, a syncing notice exactly on failure, and
the flag's value does not depend on the builders' outputs or the write
outcomes (the dispatch and transmit results). -/
theorem loop_step_connectivity (marker eamId gpsId : Nat) (be bg : List Nat)
    (wOk : Nat → Bool) (avail : Bool) (s : LoopState) :
    ((loop_step marker eamId gpsId be bg wOk avail s).state.connected =
        true ↔
      (recv_req_id marker s.id avail s.uart).status = OK) ∧
    ((recv_req_id marker s.id avail s.uart).status = OK →
      s.connected = false →
      (loop_step marker eamId gpsId be bg wOk avail s).notices =
        [Notice.reconnect]) ∧
    ((recv_req_id marker s.id avail s.uart).status = OK →
      s.connected = true →
      (loop_step marker eamId gpsId be bg wOk avail s).notices = []) ∧
    ((recv_req_id marker s.id avail s.uart).status ≠ OK →
      (loop_step marker eamId gpsId be bg wOk avail s).notices =
        [Notice.syncing]) ∧
    (∀ (be2 bg2 : List Nat) (wOk2 : Nat → Bool),
      (loop_step marker eamId gpsId be2 bg2 wOk2 avail s).state.connected =
        (loop_step marker eamId gpsId be bg wOk avail s).state.connected) := by
  refine ⟨?_, ?_, ?_, ?_, ?_⟩
  · rw [loop_step_connected]; simp
  · intro h hc
    rw [loop_step_notices, if_pos h, hc]
    rfl
  · intro h hc
    rw [loop_step_notices, if_pos h, hc]
    rfl
  · intro h
    rw [loop_step_notices, if_neg h]
  · intro be2 bg2 wOk2
    rw [loop_step_connected, loop_step_connected]

/-- Concrete session state used by witnesses: link `validUart`, currently
disconnected. -/
def disconnectedState : LoopState := ⟨validUart, false, [], 0, 0⟩

/-- Concrete session state used by witnesses: link `validUart`, currently
connected. -/
def connectedState : LoopState := ⟨validUart, true, [], 0, 0⟩

/-- Witness for C2 at a concrete disconnected state receiving a valid poll:
the listener succeeds, the flag becomes connected and the reconnection
notice is emitted. -/
theorem loop_step_connectivity_witness :
    (recv_req_id 5 disconnectedState.id true disconnectedState.uart).status =
      OK ∧
    (loop_step 5 1 2 [3] [4] (fun _ => true) true
      disconnectedState).state.connected = true ∧
    (loop_step 5 1 2 [3] [4] (fun _ => true) true
      disconnectedState).notices = [Notice.reconnect] :=
  ⟨by decide,
    (loop_step_connectivity 5 1 2 [3] [4] (fun _ => true) true
      disconnectedState).1.mpr (by decide),
    (loop_step_connectivity 5 1 2 [3] [4] (fun _ => true) true
      disconnectedState).2.1 (by decide) rfl⟩

/-- C6: for every stream whose first byte mismatches the binary-request
marker (delivered within the timeout), the listener fails having consumed
exactly one byte — it does not read a second byte — and the session-loop
iteration neither dispatches nor transmits: nothing is written to the link
and the cycle reports no transmission. -/
theorem recv_req_id_mismatch_consumes_one (marker eamId gpsId : Nat)
    (be bg : List Nat) (wOk : Nat → Bool) (s : LoopState)
    (h : s.uart.input s.uart.rxPos ≠ marker) :
    (recv_req_id marker s.id true s.uart).status = ERROR ∧
    (recv_req_id marker s.id true s.uart).uart.rxPos = s.uart.rxPos + 1 ∧
    (loop_step marker eamId gpsId be bg wOk true s).transmitted = false ∧
    (loop_step marker eamId gpsId be bg wOk true s).state.uart.txLog =
      s.uart.txLog := by
  have hr : (recv_req_id marker s.id true s.uart).status = ERROR := by
    simp [recv_req_id, h]
  have hno : ¬(recv_req_id marker s.id true s.uart).status = OK := by
    rw [hr]; decide
  refine ⟨hr, by simp [recv_req_id, h], ?_, ?_⟩
  · simp [loop_step, hno]
  · simp only [loop_step, hno, if_neg, if_false]
    exact recv_req_id_txLog marker s.id true s.uart

/-- Witness for C6 at the concrete mismatching stream (first byte 9, marker
5): the listener errors after one byte and the iteration writes nothing. -/
theorem recv_req_id_mismatch_consumes_one_witness :
    (⟨mismatchUart, true, [], 0, 0⟩ : LoopState).uart.input
      (⟨mismatchUart, true, [], 0, 0⟩ : LoopState).uart.rxPos ≠ 5 ∧
    ((recv_req_id 5 (⟨mismatchUart, true, [], 0, 0⟩ : LoopState).id true
      mismatchUart).status = ERROR ∧
    (recv_req_id 5 (⟨mismatchUart, true, [], 0, 0⟩ : LoopState).id true
      mismatchUart).uart.rxPos = mismatchUart.rxPos + 1 ∧
    (loop_step 5 1 2 [3] [4] (fun _ => true) true
      ⟨mismatchUart, true, [], 0, 0⟩).transmitted = false ∧
    (loop_step 5 1 2 [3] [4] (fun _ => true) true
      ⟨mismatchUart, true, [], 0, 0⟩).state.uart.txLog =
      mismatchUart.txLog) :=
  ⟨by decide,
    recv_req_id_mismatch_consumes_one 5 1 2 [3] [4] (fun _ => true)
      ⟨mismatchUart, true, [], 0, 0⟩ (by decide)⟩

/-- C8 counterexample: a successfully received poll with unsupported id 7
(supported ids are 1 and 2) arriving while the session is disconnected does
change the connectivity state — the flag flips from false to true before
the id is examined — refuting the claim that such a cycle leaves
connectivity unchanged. -/
theorem loop_step_unsupported_id_reconnects :
    (recv_req_id 5 disconnectedState.id true disconnectedState.uart).status =
      OK ∧
    (recv_req_id 5 disconnectedState.id true disconnectedState.uart).id =
      7 ∧
    disconnectedState.connected = false ∧
    (loop_step 5 1 2 [3] [4] (fun _ => true) true
      disconnectedState).transmitted = false ∧
    (loop_step 5 1 2 [3] [4] (fun _ => true) true
      disconnectedState).state.connected = true := by
  refine ⟨by decide, by decide, rfl, ?_, ?_⟩ <;> decide

/-- C8 amended: on a successfully received poll whose sensor id is neither
`eamId` nor `gpsId`, the iteration transmits no frame (nothing is written
to the link), does not treat the cycle as an error (no syncing notice, and
no notice at all when already connected), and ends connected: the
connectivity state is unchanged when the session was already connected,
while a previously disconnected session is marked connected by the
successful receive itself, before the id is examined. -/
theorem loop_step_unsupported_id (marker eamId gpsId : Nat)
    (be bg : List Nat) (wOk : Nat → Bool) (s : LoopState)
    (hok : (recv_req_id marker s.id true s.uart).status = OK)
    (hid1 : (recv_req_id marker s.id true s.uart).id ≠ eamId)
    (hid2 : (recv_req_id marker s.id true s.uart).id ≠ gpsId) :
    (loop_step marker eamId gpsId be bg wOk true s).transmitted = false ∧
    (loop_step marker eamId gpsId be bg wOk true s).state.uart.txLog =
      s.uart.txLog ∧
    (loop_step marker eamId gpsId be bg wOk true s).state.connected =
      true ∧
    Notice.syncing ∉
      (loop_step marker eamId gpsId be bg wOk true s).notices ∧
    (s.connected = true →
      (loop_step marker eamId gpsId be bg wOk true s).state.connected =
        s.connected ∧
      (loop_step marker eamId gpsId be bg wOk true s).notices = []) := by
  have hstep : loop_step marker eamId gpsId be bg wOk true s =
      ⟨{ s with
          uart := (recv_req_id marker s.id true s.uart).uart
          id := (recv_req_id marker s.id true s.uart).id
          connected := true },
        if s.connected then [] else [Notice.reconnect], false⟩ := by
    simp [loop_step, hok, hid1, hid2]
  rw [hstep]
  refine ⟨rfl, recv_req_id_txLog marker s.id true s.uart, rfl, ?_, ?_⟩
  · by_cases hc : s.connected <;> simp [hc]
  · intro hc
    rw [hc]
    simp [hc]

/-- Witness for the amended C8 at a concrete connected state receiving a
poll with unsupported id 7. -/
theorem loop_step_unsupported_id_witness :
    (recv_req_id 5 connectedState.id true connectedState.uart).status =
      OK ∧
    (recv_req_id 5 connectedState.id true connectedState.uart).id ≠ 1 ∧
    (recv_req_id 5 connectedState.id true connectedState.uart).id ≠ 2 ∧
    ((loop_step 5 1 2 [3] [4] (fun _ => true) true
        connectedState).transmitted = false ∧
      (loop_step 5 1 2 [3] [4] (fun _ => true) true
        connectedState).state.uart.txLog = connectedState.uart.txLog ∧
      (loop_step 5 1 2 [3] [4] (fun _ => true) true
        connectedState).state.connected = true ∧
      Notice.syncing ∉
        (loop_step 5 1 2 [3] [4] (fun _ => true) true
          connectedState).notices ∧
      (connectedState.connected = true →
        (loop_step 5 1 2 [3] [4] (fun _ => true) true
          connectedState).state.connected = connectedState.connected ∧
        (loop_step 5 1 2 [3] [4] (fun _ => true) true
          connectedState).notices = [])) :=
  ⟨by decide, by decide, by decide,
    loop_step_unsupported_id 5 1 2 [3] [4] (fun _ => true) connectedState
      (by decide) (by decide) (by decide)⟩

/-- State of the text-mode read loop of `recv_data`: the caller's buffer
contents, the caller's `*id` cell, the receive position on the link, the
write index `i`, the `stop_byte_read` flag, and the list of buffer indices
written so far, in order. -/
structure RecvDataState where
  buf : Nat → Nat
  id : Nat
  pos : Nat
  i : Nat
  sbr : Bool
  writes : List Nat

/-- Embedding of the `while (true)` read loop of `recv_data`
(hott_telemetry.c lines 119-134), with explicit fuel because the C loop has
no bound check: each pass reads one byte into `buffer[i]`; if the stop byte
was seen on a previous pass it returns `*size = i + 1`; otherwise, on
reading the stop byte it latches `*id = buffer[1]` and sets the flag; then
`i` is incremented.  A `none` result means the fuel ran out with the loop
still running. -/
def recv_data_loop (stopByte : Nat) (input : Nat → Nat) :
    Nat → RecvDataState → Option Nat × RecvDataState
  | 0, s => (none, s)
  | fuel + 1, s =>
      let b := input s.pos
      let buf1 := Function.update s.buf s.i b
      let s1 : RecvDataState :=
        { s with
            buf := buf1
            pos := s.pos + 1
            writes := s.writes ++ [s.i] }
      if s.sbr then (some (s.i + 1), { s1 with i := s.i + 1 })
      else
        let s2 : RecvDataState :=
          if b = stopByte then { s1 with id := buf1 1, sbr := true } else s1
        recv_data_loop stopByte input fuel { s2 with i := s.i + 1 }

/-- Embedding of `recv_data` (hott_telemetry.c lines 106-137): after the
1000 ms poll succeeds (`avail`), the unbounded read loop runs; on timeout
the function returns `ERROR` having read nothing, modelled as `none` with
the state untouched. -/
def recv_data (stopByte : Nat) (avail : Bool) (fuel : Nat)
    (input : Nat → Nat) (s : RecvDataState) : Option Nat × RecvDataState :=
  if avail then recv_data_loop stopByte input fuel s else (none, s)

theorem recv_data_loop_no_stop (stopByte : Nat) (input : Nat → Nat) :
    ∀ (fuel : Nat) (s : RecvDataState), s.sbr = false →
      (∀ k, input (s.pos + k) ≠ stopByte) →
      (recv_data_loop stopByte input fuel s).1 = none ∧
      (recv_data_loop stopByte input fuel s).2.writes =
        s.writes ++ (List.range fuel).map (fun j => s.i + j) := by
  intro fuel
  induction fuel with
  | zero => intro s _ _; simp [recv_data_loop]
  | succ n ih =>
      intro s hs hk
      have hb : input s.pos ≠ stopByte := by
        have h0 := hk 0
        simpa using h0
      have hrec := ih
        { s with
            buf := Function.update s.buf s.i (input s.pos)
            pos := s.pos + 1
            writes := s.writes ++ [s.i]
            i := s.i + 1 }
        hs (fun k => by simpa [Nat.add_assoc, Nat.add_comm,
          Nat.add_left_comm] using hk (k + 1))
      simp only [recv_data_loop, hs, Bool.false_eq_true, if_false,
        if_neg hb] at hrec ⊢
      refine ⟨hrec.1, ?_⟩
      rw [hrec.2]
      simp only [List.append_assoc, List.singleton_append]
      congr 1
      rw [List.range_succ_eq_map, List.map_cons, List.map_map]
      have hfun : (fun j => s.i + 1 + j) = ((fun j => s.i + j) ∘ Nat.succ) := by
        funext j
        simp only [Function.comp_apply]
        omega
      rw [hfun]
      simp

/-- Fresh caller state for `recv_data`: zeroed buffer and id, nothing read,
write index 0, flag clear, no writes performed. -/
def freshRead : RecvDataState := ⟨fun _ => 0, 0, 0, 0, false, []⟩

/-- C9: on every input stream that contains no stop byte, the read loop of
`recv_data` never terminates — it yields `none` for every amount of fuel —
and its write index into the caller's buffer grows without bound: past any
fixed capacity `cap` there is a point at which the loop has written to a
buffer index exceeding `cap`.  Hence `recv_data` terminates only on streams
that contain the stop-byte value. -/
theorem recv_data_no_stop_byte_diverges (stopByte : Nat)
    (input : Nat → Nat) (s : RecvDataState) (hs : s.sbr = false)
    (hk : ∀ k, input (s.pos + k) ≠ stopByte) :
    (∀ fuel, (recv_data stopByte true fuel input s).1 = none) ∧
    (∀ cap, ∃ fuel, ∃ j ∈
      (recv_data stopByte true fuel input s).2.writes, cap < j) := by
  constructor
  · intro fuel
    exact (recv_data_loop_no_stop stopByte input fuel s hs hk).1
  · intro cap
    refine ⟨cap + 2, s.i + (cap + 1), ?_, by omega⟩
    show s.i + (cap + 1) ∈
      (recv_data_loop stopByte input (cap + 2) s).2.writes
    rw [(recv_data_loop_no_stop stopByte input (cap + 2) s hs hk).2]
    refine List.mem_append_right _ ?_
    exact List.mem_map.mpr ⟨cap + 1, List.mem_range.mpr (by omega), rfl⟩

/-- Witness for C9 on the all-zero stream with stop byte 1: the loop never
returns and writes past capacity. -/
theorem recv_data_no_stop_byte_diverges_witness :
    freshRead.sbr = false ∧
    (∀ k, (fun _ => 0 : Nat → Nat) (freshRead.pos + k) ≠ 1) ∧
    ((∀ fuel,
        (recv_data 1 true fuel (fun _ => 0) freshRead).1 = none) ∧
      (∀ cap, ∃ fuel, ∃ j ∈
        (recv_data 1 true fuel (fun _ => 0) freshRead).2.writes,
        cap < j)) :=
  ⟨rfl, fun k => by simp,
    recv_data_no_stop_byte_diverges 1 (fun _ => 0) freshRead rfl
      (fun k => by simp)⟩

end HottTelemetry
